import Mathlib

/-!
Verification of the CogniPet firmware (`src/cognipet_esp32/cognipet_esp32.ino`).

This file gives a shallow embedding, in Lean, of the pure logic of the
firmware: the cognitive-assessment scoring pipeline, the option-rotation
helper, the pet-simulation gauge updates, the interaction ring buffer, and
the diagnostics-mode state transition.  Machine integers (`uint8_t`,
`uint16_t`) are modelled as `Nat` with an explicit `% 2^w` at the points
where the C code truncates; `unsigned`/Arduino `max(0, x - k)` on
non-negative quantities coincides with truncated subtraction on `Nat`.
Blocking input-collection loops are modelled by passing the collected
inputs (button selections, latencies, hit/miss outcomes) as arguments.
-/

namespace NightWatch

/-- Alert-level computation exactly as coded at the end of
`runCognitiveAssessment` (lines 1268-1276) and in `sendTestAssessmentData`
(lines 1759-1767): an if-chain on the total score. -/
def alertLevelOf (t : Nat) : Nat :=
  if 10 ≤ t then 0
  else if 7 ≤ t then 1
  else if 4 ≤ t then 2
  else 3

/-- Alert level as the specification words it: "0 if t≥10, 1 if 7≤t<10,
2 if 4≤t<7, 3 if t<4".  This definition follows the spec's words and is
compared against the source-derived `alertLevelOf`. -/
def specAlertLevel (t : Nat) : Nat :=
  if 10 ≤ t then 0
  else if 7 ≤ t ∧ t < 10 then 1
  else if 4 ≤ t ∧ t < 7 then 2
  else 3

/-- The firmware's `AssessmentResult` struct.  `uint8_t`/`uint16_t`/
`uint32_t` fields are modelled as `Nat`. -/
structure AssessmentResult where
  timestamp : Nat
  orientation_score : Nat
  memory_score : Nat
  attention_score : Nat
  executive_score : Nat
  total_score : Nat
  avg_response_time_ms : Nat
  alert_level : Nat
deriving DecidableEq, Repr

/-- The fields of `struct tm` that `testOrientation` reads
(`tm_wday`, `tm_mday`, `tm_hour`, `tm_min`). -/
structure Tm where
  wday : Nat
  mday : Nat
  hour : Nat
  minute : Nat
deriving DecidableEq, Repr

/-- One left cyclic step of a 3-element array: the body of the `while`
loop in `rotateOptions` (`tmp = arr[0]; arr[0] = arr[1]; arr[1] = arr[2];
arr[2] = tmp`). -/
def rotl {α : Type} (a : α × α × α) : α × α × α :=
  (a.2.1, a.2.2, a.1)

/-- `rotateOptions(arr, shift)` (lines 357-365): `shift %= 3` followed by
that many single left-rotations. -/
def rotateOptions {α : Type} (a : α × α × α) (shift : Nat) : α × α × α :=
  rotl^[shift % 3] a

/-- Index into a 3-element array, as `arr[i]` with `i < 3`; out-of-range
indices (never produced by the firmware) fall into the last slot. -/
def tripleGet {α : Type} (a : α × α × α) (i : Nat) : α :=
  match i with
  | 0 => a.1
  | 1 => a.2.1
  | _ => a.2.2

/-- The slot-search loop of `testOrientation` (`for i in 0..2, if
options[i] == target { slot = i; break }` with `slot` initialised to 0). -/
def findSlot (a : Nat × Nat × Nat) (target : Nat) : Nat :=
  if a.1 = target then 0
  else if a.2.1 = target then 1
  else if a.2.2 = target then 2
  else 0

/-- Inputs consumed by `testOrientation` when it runs: the wall-clock
reading (`none` when `getLocalTimeSafe` fails), the three button
selections, and the three per-question latencies (`millis()`
differences). -/
structure OriInput where
  timeInfo : Option Tm
  aDay : Nat
  aTime : Nat
  aLoc : Nat
  tDay : Nat
  tTime : Nat
  tLoc : Nat
deriving DecidableEq, Repr

/-- `testOrientation` (lines 787-984), returning the 0-3 sub-score and the
list of recorded (uint16-truncated) latencies.  When the clock is
unavailable the function prints a sync prompt and returns 0 immediately,
recording nothing; otherwise it asks day-of-week, time-of-day and location
questions, rotating the first two option sets. -/
def testOrientation (inp : OriInput) : Nat × List Nat :=
  match inp.timeInfo with
  | none => (0, [])
  | some now =>
    let today := now.wday % 7
    let dayOptions := rotateOptions (today, (today + 6) % 7, (today + 1) % 7) (now.mday % 3)
    let correctDaySlot := findSlot dayOptions today
    let s1 := if inp.aDay = correctDaySlot then 1 else 0
    let correctPeriod :=
      if 5 ≤ now.hour ∧ now.hour < 12 then 0
      else if 12 ≤ now.hour ∧ now.hour < 18 then 1
      else 2
    let periodOptions := rotateOptions ((0 : Nat), (1 : Nat), (2 : Nat)) (now.minute % 3)
    let correctPeriodSlot := findSlot periodOptions correctPeriod
    let s2 := if inp.aTime = correctPeriodSlot then 1 else 0
    let s3 := if inp.aLoc = 0 then 1 else 0
    (s1 + s2 + s3, [inp.tDay % 65536, inp.tTime % 65536, inp.tLoc % 65536])

/-- Inputs of `testMemory`: the generated 3-symbol sequence
(`random(0,3)` each), the user's three button entries, and the single
recorded latency for the whole repetition phase. -/
structure MemInput where
  s0 : Nat
  s1 : Nat
  s2 : Nat
  u0 : Nat
  u1 : Nat
  u2 : Nat
  t : Nat
deriving DecidableEq, Repr

/-- `testMemory` (lines 986-1070): score is the count of position-wise
matches; exactly one latency is recorded. -/
def testMemory (inp : MemInput) : Nat × List Nat :=
  let correct :=
    (if inp.s0 = inp.u0 then 1 else 0) +
    (if inp.s1 = inp.u1 then 1 else 0) +
    (if inp.s2 = inp.u2 then 1 else 0)
  (correct, [inp.t % 65536])

/-- Inputs of `testAttention`: for each of the 5 trials, `some t` if the
button was pressed inside the 2-second window after `t` ms, `none` on a
miss. -/
structure AttInput where
  r1 : Option Nat
  r2 : Option Nat
  r3 : Option Nat
  r4 : Option Nat
  r5 : Option Nat
deriving DecidableEq, Repr

/-- Number of attention trials answered in time (`attentionCorrect`). -/
def attCorrect (inp : AttInput) : Nat :=
  (if inp.r1.isSome then 1 else 0) +
  (if inp.r2.isSome then 1 else 0) +
  (if inp.r3.isSome then 1 else 0) +
  (if inp.r4.isSome then 1 else 0) +
  (if inp.r5.isSome then 1 else 0)

/-- Latencies recorded by `testAttention`: one per answered trial. -/
def attLatencies (inp : AttInput) : List Nat :=
  [inp.r1, inp.r2, inp.r3, inp.r4, inp.r5].filterMap (fun o => o.map (· % 65536))

/-- The raw-correct-count to 0-3 mapping at the end of `testAttention`
(lines 1139-1149). -/
def attentionFinalScore (c : Nat) : Nat :=
  if 4 ≤ c then 3
  else if 3 ≤ c then 2
  else if 2 ≤ c then 1
  else 0

/-- `testAttention` (lines 1072-1150): 5 trials, sub-score from the raw
count, latencies recorded only for answered trials. -/
def testAttention (inp : AttInput) : Nat × List Nat :=
  (attentionFinalScore (attCorrect inp), attLatencies inp)

/-- The fixed canonical ordering `correctSequence[4] = {1, 0, 2, 3}`
(line 186). -/
def correctSequence : Nat × Nat × Nat × Nat := (1, 0, 2, 3)

/-- Inputs of `testExecutiveFunction`: the user's 4 button entries and the
single recorded latency. -/
structure ExeInput where
  u0 : Nat
  u1 : Nat
  u2 : Nat
  u3 : Nat
  t : Nat
deriving DecidableEq, Repr

/-- Count of position-wise matches against `correctSequence`
(lines 1201-1204). -/
def exeMatches (inp : ExeInput) : Nat :=
  (if inp.u0 = correctSequence.1 then 1 else 0) +
  (if inp.u1 = correctSequence.2.1 then 1 else 0) +
  (if inp.u2 = correctSequence.2.2.1 then 1 else 0) +
  (if inp.u3 = correctSequence.2.2.2 then 1 else 0)

/-- The match-count to 0-3 mapping at the end of `testExecutiveFunction`
(lines 1215-1223): `correct == 4` gives 3, `correct >= 2` gives 2,
anything else gives 0. -/
def executiveScoreOfMatches (m : Nat) : Nat :=
  if m = 4 then 3
  else if 2 ≤ m then 2
  else 0

/-- `testExecutiveFunction` (lines 1152-1224): sub-score from the match
count; exactly one latency is recorded. -/
def testExecutiveFunction (inp : ExeInput) : Nat × List Nat :=
  (executiveScoreOfMatches (exeMatches inp), [inp.t % 65536])

/-- All inputs consumed by one complete run of the assessment engine. -/
structure AssessInput where
  ori : OriInput
  mem : MemInput
  att : AttInput
  exe : ExeInput
deriving DecidableEq, Repr

/-- The latencies recorded over a whole assessment, in recording order;
`responseCount` in the firmware is the length of this list. -/
def assessLatencies (inp : AssessInput) : List Nat :=
  (testOrientation inp.ori).2 ++ (testMemory inp.mem).2 ++
    (testAttention inp.att).2 ++ (testExecutiveFunction inp.exe).2

/-- The running `totalResponseTime += responseTime` accumulation: the
accumulator is a `uint16_t`, so every addition truncates modulo 2^16. -/
def accumResponseTime (ls : List Nat) : Nat :=
  ls.foldl (fun acc t => (acc + t) % 65536) 0

/-- The result-assembly part of `runCognitiveAssessment`
(lines 1226-1301): runs the four sub-tests, sums the sub-scores into the
`uint8_t` total, divides the 16-bit latency accumulator by the response
count, and derives the alert level. -/
def runCognitiveAssessment (ts : Nat) (inp : AssessInput) : AssessmentResult :=
  let o := (testOrientation inp.ori).1
  let m := (testMemory inp.mem).1
  let a := (testAttention inp.att).1
  let e := (testExecutiveFunction inp.exe).1
  let lats := assessLatencies inp
  let total := (o + m + a + e) % 256
  { timestamp := ts
    orientation_score := o
    memory_score := m
    attention_score := a
    executive_score := e
    total_score := total
    avg_response_time_ms := accumResponseTime lats / lats.length
    alert_level := alertLevelOf total }

/-- The four hard-coded score quadruples (plus canned average response
time) that `sendTestAssessmentData` cycles through via
`testScenario % 4`. -/
def testDataScores (n : Nat) : Nat × Nat × Nat × Nat × Nat :=
  match n % 4 with
  | 0 => (3, 3, 3, 3, 2000)
  | 1 => (2, 2, 2, 2, 3000)
  | 2 => (1, 1, 1, 1, 5000)
  | _ => (3, 1, 2, 2, 3500)

/-- `sendTestAssessmentData` (lines 1709-1793): builds a synthetic
`AssessmentResult` for cycle `n` with the same total and alert-level code
as the real path. -/
def sendTestAssessmentData (ts n : Nat) : AssessmentResult :=
  let s := testDataScores n
  let total := (s.1 + s.2.1 + s.2.2.1 + s.2.2.2.1) % 256
  { timestamp := ts
    orientation_score := s.1
    memory_score := s.2.1
    attention_score := s.2.2.1
    executive_score := s.2.2.2.1
    total_score := total
    avg_response_time_ms := s.2.2.2.2
    alert_level := alertLevelOf total }

/-- The firmware's `PetState` struct: three `uint8_t` gauges plus three
`unsigned long` timestamps. -/
structure Pet where
  happiness : Nat
  hunger : Nat
  cleanliness : Nat
  lastFed : Nat
  lastPlayed : Nat
  lastCleaned : Nat
deriving DecidableEq, Repr

/-- `initializePet` (lines 1304-1314) at boot/assessment-completion time
`now`. -/
def initializePet (now : Nat) : Pet :=
  { happiness := 60, hunger := 50, cleanliness := 70
    lastFed := now, lastPlayed := now, lastCleaned := now }

/-- `updatePetStats` (lines 1316-1340): when more than a minute has
elapsed since `lastFed`, hunger rises by 2 (capped at 100), cleanliness
drops by 1 (floored at 0), happiness decays depending on the *updated*
hunger and cleanliness, and recovers by 1 when needs are met. -/
def updatePetStats (now : Nat) (p : Pet) : Pet :=
  if 60000 < now - p.lastFed then
    let hunger := min 100 (p.hunger + 2)
    let cleanliness := p.cleanliness - 1
    let h1 :=
      if 80 < hunger then p.happiness - 3
      else if 60 < hunger then p.happiness - 1
      else p.happiness
    let h2 := if cleanliness < 20 then h1 - 2 else h1
    let h3 :=
      if hunger < 50 ∧ 50 < cleanliness ∧ h2 < 80 then min 100 (h2 + 1)
      else h2
    { p with happiness := h3, hunger := hunger, cleanliness := cleanliness, lastFed := now }
  else p

/-- Gauge mutations of `feedPet` (lines 1416-1435). -/
def feedPet (p : Pet) : Pet :=
  { p with hunger := p.hunger - 30, happiness := min 100 (p.happiness + 10) }

/-- Gauge mutations of `playWithPet` (lines 1437-1498): happiness rises
by 15 only when the star is hit in time. -/
def playWithPet (hit : Bool) (p : Pet) : Pet :=
  if hit then { p with happiness := min 100 (p.happiness + 15) } else p

/-- Gauge mutations of `cleanPet` (lines 1500-1517). -/
def cleanPet (p : Pet) : Pet :=
  { p with cleanliness := min 100 (p.cleanliness + 40),
           happiness := min 100 (p.happiness + 5) }

/-- Gauge mutations of `checkMood` (lines 1524-1573): `some 0` nudges
happiness up by 5, `some 1` leaves it alone, `some m` for other selections
nudges it down by 5, and a timeout (`none`) changes nothing. -/
def checkMood (sel : Option Nat) (p : Pet) : Pet :=
  match sel with
  | none => p
  | some 0 => { p with happiness := min 100 (p.happiness + 5) }
  | some 1 => p
  | some _ => { p with happiness := p.happiness - 5 }

/-- Gauge mutations of `playMemoryGame` (lines 1575-1666): happiness
rises by 10 only on a perfect repetition. -/
def playMemoryGame (perfect : Bool) (p : Pet) : Pet :=
  if perfect then { p with happiness := min 100 (p.happiness + 10) } else p

/-- One pet-state mutation: a maintenance tick at a given `millis()`
value, or one of the interactions. -/
inductive PetOp where
  | tick (now : Nat)
  | feed
  | play (hit : Bool)
  | clean
  | mood (sel : Option Nat)
  | memoryGame (perfect : Bool)
deriving DecidableEq, Repr

/-- Apply one pet-state mutation. -/
def applyPetOp (p : Pet) : PetOp → Pet
  | .tick now => updatePetStats now p
  | .feed => feedPet p
  | .play hit => playWithPet hit p
  | .clean => cleanPet p
  | .mood sel => checkMood sel p
  | .memoryGame perfect => playMemoryGame perfect p

/-- Apply a sequence of pet-state mutations, oldest first. -/
def applyPetOps (p : Pet) (ops : List PetOp) : Pet :=
  ops.foldl applyPetOp p

/-- The `[0,100]` gauge invariant (the lower bound is inherent in the
`Nat` model, matching `max(0, _)` and the unsigned stores). -/
def gaugesInRange (p : Pet) : Prop :=
  p.happiness ≤ 100 ∧ p.hunger ≤ 100 ∧ p.cleanliness ≤ 100

instance (p : Pet) : Decidable (gaugesInRange p) := by
  unfold gaugesInRange; infer_instance

/-- The firmware's `InteractionLog` struct. -/
structure InteractionLog where
  timestamp : Nat
  interaction_type : Nat
  response_time_ms : Nat
  success : Nat
  mood_selected : Int
deriving DecidableEq, Repr

/-- The interaction ring buffer: the 20-slot array `interactionQueue`
together with `queueHead` and `queueTail`. -/
structure RingState where
  queue : List InteractionLog
  head : Nat
  tail : Nat
deriving DecidableEq, Repr

/-- Boot-time contents of the queue: the globals are zero-initialised. -/
def emptyLog : InteractionLog :=
  { timestamp := 0, interaction_type := 0, response_time_ms := 0
    success := 0, mood_selected := 0 }

/-- The queue state at boot: 20 zeroed slots, `queueHead = queueTail = 0`. -/
def initialRing : RingState :=
  { queue := List.replicate 20 emptyLog, head := 0, tail := 0 }

/-- The queue mutation of `logInteraction` (lines 759-784):
`interactionQueue[queueTail] = log; queueTail = (queueTail + 1) % 20;`.
`queueHead` is not touched.  The best-effort BLE notify does not affect
the queue. -/
def logInteractionQ (s : RingState) (l : InteractionLog) : RingState :=
  { queue := s.queue.set s.tail l, head := s.head, tail := (s.tail + 1) % 20 }

/-- A sequence of `logInteraction` calls, oldest first. -/
def insertAll (s : RingState) (ls : List InteractionLog) : RingState :=
  ls.foldl logInteractionQ s

/-- The occupancy count displayed by diagnostics page 1 (line 1944):
`(queueTail + 20 - queueHead) % 20`. -/
def queueCountDiag (s : RingState) : Nat :=
  (s.tail + 20 - s.head) % 20

/-- A distinguishable interaction record, used as the `i`-th insertion in
concrete ring-buffer runs. -/
def numberedLog (i : Nat) : InteractionLog :=
  { timestamp := i, interaction_type := 0, response_time_ms := i
    success := 1, mood_selected := -1 }

/-- The device-state enumeration `DeviceState`. -/
inductive DevState where
  | firstBoot
  | assessment
  | petNormal
  | petMenu
  | petStats
  | petMood
  | petGame
  | diagnostics
deriving DecidableEq, Repr

/-- The button-sampling globals written by `updateButtons`
(lines 651-669): current samples, previous samples, and press-edge
timestamps. -/
structure Buttons where
  btn1Pressed : Bool
  btn2Pressed : Bool
  btn3Pressed : Bool
  btn1Last : Bool
  btn2Last : Bool
  btn3Last : Bool
  btn1PressTime : Nat
  btn2PressTime : Nat
  btn3PressTime : Nat
deriving DecidableEq, Repr

/-- `updateButtons` with raw reads `b1 b2 b3` at time `now`. -/
def updateButtons (b1 b2 b3 : Bool) (now : Nat) (b : Buttons) : Buttons :=
  { btn1Pressed := b1, btn2Pressed := b2, btn3Pressed := b3
    btn1Last := b.btn1Pressed, btn2Last := b.btn2Pressed, btn3Last := b.btn3Pressed
    btn1PressTime := if b1 ∧ ¬b.btn1Pressed then now else b.btn1PressTime
    btn2PressTime := if b2 ∧ ¬b.btn2Pressed then now else b.btn2PressTime
    btn3PressTime := if b3 ∧ ¬b.btn3Pressed then now else b.btn3PressTime }

/-- `buttonPressed(1)`: a fresh press edge on button 1. -/
def buttonPressed1 (b : Buttons) : Bool := b.btn1Pressed && !b.btn1Last

/-- `buttonPressed(2)`: a fresh press edge on button 2. -/
def buttonPressed2 (b : Buttons) : Bool := b.btn2Pressed && !b.btn2Last

/-- The global mutable state read or written by `runDiagnosticsMode`:
button sampling, the pet, the last assessment, the interaction queue, the
diagnostics bookkeeping (including the function-static `exitHold` /
`exitStart`), and the dispatcher state. -/
structure Device where
  buttons : Buttons
  pet : Pet
  lastAssessment : AssessmentResult
  ring : RingState
  diagnosticsPage : Nat
  lastDiagnosticsRefresh : Nat
  diagnosticsActive : Bool
  exitHold : Bool
  exitStart : Nat
  currentState : DevState
deriving DecidableEq, Repr

/-- Per-iteration inputs of `runDiagnosticsMode`: the three raw
`digitalRead` values and `millis()`. -/
structure DiagInput where
  b1 : Bool
  b2 : Bool
  b3 : Bool
  now : Nat
deriving DecidableEq, Repr

/-- The refresh rate-limit gate at the end of `runDiagnosticsMode`
(lines 1910-1913); the page rendering below it only reads state. -/
def diagRefresh (now : Nat) (d : Device) : Device :=
  if now - d.lastDiagnosticsRefresh < 400 then d
  else { d with lastDiagnosticsRefresh := now }

/-- `runDiagnosticsMode` (lines 1880-1977) as a state transition:
sample buttons, page navigation on button-1/2 edges, exit-hold tracking on
button 3 (1.5-second hold exits to `petNormal`), then the rate-limited
refresh; the `switch` that renders the four pages performs reads only. -/
def runDiagnosticsMode (inp : DiagInput) (d : Device) : Device :=
  let buttons := updateButtons inp.b1 inp.b2 inp.b3 inp.now d.buttons
  let d1 := { d with buttons := buttons }
  let d2 :=
    if buttonPressed1 buttons then
      { d1 with diagnosticsPage := (d1.diagnosticsPage + 1) % 4, lastDiagnosticsRefresh := 0 }
    else if buttonPressed2 buttons then
      { d1 with diagnosticsPage := (d1.diagnosticsPage + 4 - 1) % 4, lastDiagnosticsRefresh := 0 }
    else d1
  if inp.b3 ∧ ¬d2.exitHold then
    diagRefresh inp.now { d2 with exitHold := true, exitStart := inp.now }
  else if inp.b3 ∧ d2.exitHold then
    if 1500 < inp.now - d2.exitStart then
      { d2 with exitHold := false, diagnosticsActive := false, currentState := DevState.petNormal }
    else
      diagRefresh inp.now d2
  else
    diagRefresh inp.now { d2 with exitHold := false }

/-- Boot-time button-sampling state. -/
def initialButtons : Buttons :=
  { btn1Pressed := false, btn2Pressed := false, btn3Pressed := false
    btn1Last := false, btn2Last := false, btn3Last := false
    btn1PressTime := 0, btn2PressTime := 0, btn3PressTime := 0 }

/-- The zero-initialised global `lastAssessment` before any assessment
has run. -/
def zeroAssessment : AssessmentResult :=
  { timestamp := 0, orientation_score := 0, memory_score := 0
    attention_score := 0, executive_score := 0, total_score := 0
    avg_response_time_ms := 0, alert_level := 0 }

/-- A concrete assessment run whose two recorded latencies (40 s each,
memory and executive; orientation unsynced, all attention trials missed)
overflow the 16-bit `totalResponseTime` accumulator. -/
def overflowLatencyInput : AssessInput :=
  { ori := { timeInfo := none, aDay := 0, aTime := 0, aLoc := 0, tDay := 0, tTime := 0, tLoc := 0 }
    mem := { s0 := 0, s1 := 0, s2 := 0, u0 := 0, u1 := 0, u2 := 0, t := 40000 }
    att := { r1 := none, r2 := none, r3 := none, r4 := none, r5 := none }
    exe := { u0 := 0, u1 := 0, u2 := 0, u3 := 0, t := 40000 } }

/-- A concrete assessment run whose recorded latencies (100 ms each) fit
comfortably inside the 16-bit accumulator. -/
def smallLatencyInput : AssessInput :=
  { ori := { timeInfo := none, aDay := 0, aTime := 0, aLoc := 0, tDay := 0, tTime := 0, tLoc := 0 }
    mem := { s0 := 0, s1 := 0, s2 := 0, u0 := 0, u1 := 0, u2 := 0, t := 100 }
    att := { r1 := none, r2 := none, r3 := none, r4 := none, r5 := none }
    exe := { u0 := 0, u1 := 0, u2 := 0, u3 := 0, t := 100 } }

/-! ### Helper lemmas -/

/-- The two alert-level definitions agree on every total score: the
if-chain makes the upper bounds of the middle bands redundant. -/
theorem alertLevelOf_eq_spec (t : Nat) : alertLevelOf t = specAlertLevel t := by
  unfold alertLevelOf specAlertLevel
  split_ifs <;> omega

theorem runCA_ori (ts : Nat) (inp : AssessInput) :
    (runCognitiveAssessment ts inp).orientation_score = (testOrientation inp.ori).1 := rfl

theorem runCA_mem (ts : Nat) (inp : AssessInput) :
    (runCognitiveAssessment ts inp).memory_score = (testMemory inp.mem).1 := rfl

theorem runCA_att (ts : Nat) (inp : AssessInput) :
    (runCognitiveAssessment ts inp).attention_score = (testAttention inp.att).1 := rfl

theorem runCA_exe (ts : Nat) (inp : AssessInput) :
    (runCognitiveAssessment ts inp).executive_score = (testExecutiveFunction inp.exe).1 := rfl

theorem runCA_total (ts : Nat) (inp : AssessInput) :
    (runCognitiveAssessment ts inp).total_score =
      ((testOrientation inp.ori).1 + (testMemory inp.mem).1 +
        (testAttention inp.att).1 + (testExecutiveFunction inp.exe).1) % 256 := rfl

theorem runCA_alert (ts : Nat) (inp : AssessInput) :
    (runCognitiveAssessment ts inp).alert_level =
      alertLevelOf ((runCognitiveAssessment ts inp).total_score) := rfl

theorem runCA_avg (ts : Nat) (inp : AssessInput) :
    (runCognitiveAssessment ts inp).avg_response_time_ms =
      accumResponseTime (assessLatencies inp) / (assessLatencies inp).length := rfl

theorem sendTD_ori (ts n : Nat) :
    (sendTestAssessmentData ts n).orientation_score = (testDataScores n).1 := rfl

theorem sendTD_mem (ts n : Nat) :
    (sendTestAssessmentData ts n).memory_score = (testDataScores n).2.1 := rfl

theorem sendTD_att (ts n : Nat) :
    (sendTestAssessmentData ts n).attention_score = (testDataScores n).2.2.1 := rfl

theorem sendTD_exe (ts n : Nat) :
    (sendTestAssessmentData ts n).executive_score = (testDataScores n).2.2.2.1 := rfl

theorem sendTD_total (ts n : Nat) :
    (sendTestAssessmentData ts n).total_score =
      ((testDataScores n).1 + (testDataScores n).2.1 +
        (testDataScores n).2.2.1 + (testDataScores n).2.2.2.1) % 256 := rfl

theorem sendTD_alert (ts n : Nat) :
    (sendTestAssessmentData ts n).alert_level =
      alertLevelOf ((sendTestAssessmentData ts n).total_score) := rfl

/-- Case analysis helper for the cycling test scenarios. -/
theorem testDataScores_cases (n : Nat) :
    testDataScores n = (3, 3, 3, 3, 2000) ∨ testDataScores n = (2, 2, 2, 2, 3000) ∨
    testDataScores n = (1, 1, 1, 1, 5000) ∨ testDataScores n = (3, 1, 2, 2, 3500) := by
  have h : n % 4 = 0 ∨ n % 4 = 1 ∨ n % 4 = 2 ∨ n % 4 = 3 := by omega
  rcases h with h | h | h | h <;> simp [testDataScores, h]

theorem testOrientation_score_le (inp : OriInput) : (testOrientation inp).1 ≤ 3 := by
  rcases htm : inp.timeInfo with _ | tm
  · simp [testOrientation, htm]
  · simp only [testOrientation, htm]
    split_ifs <;> simp

theorem testMemory_score_le (inp : MemInput) : (testMemory inp).1 ≤ 3 := by
  simp only [testMemory]
  split_ifs <;> simp

theorem testAttention_score_le (inp : AttInput) : (testAttention inp).1 ≤ 3 := by
  simp only [testAttention, attentionFinalScore]
  split_ifs <;> simp

theorem testExecutive_score_le (inp : ExeInput) : (testExecutiveFunction inp).1 ≤ 3 := by
  simp only [testExecutiveFunction, executiveScoreOfMatches]
  split_ifs <;> simp

/-! ### Claim theorems -/

/-- C1: for every `AssessmentResult` produced — by a completed real
assessment and by the synthetic test-data path — the stored alert level is
the deterministic step function of the total score `t`: 0 if `t ≥ 10`, 1
if `7 ≤ t < 10`, 2 if `4 ≤ t < 7`, 3 if `t < 4`; and the alert computation
agrees with that step function on all 13 totals in `[0, 12]`. -/
theorem alert_level_is_step_function :
    (∀ ts inp, (runCognitiveAssessment ts inp).alert_level =
        specAlertLevel ((runCognitiveAssessment ts inp).total_score)) ∧
    (∀ ts n, (sendTestAssessmentData ts n).alert_level =
        specAlertLevel ((sendTestAssessmentData ts n).total_score)) ∧
    (∀ t, t ≤ 12 → alertLevelOf t = specAlertLevel t) := by
  refine ⟨?_, ?_, ?_⟩
  · intro ts inp
    rw [runCA_alert, alertLevelOf_eq_spec]
  · intro ts n
    rw [sendTD_alert, alertLevelOf_eq_spec]
  · intro t _
    exact alertLevelOf_eq_spec t

/-- Witness for C1: the step function is realised at the concrete total
score 8. -/
theorem alert_level_is_step_function_witness :
    alertLevelOf 8 = specAlertLevel 8 :=
  alert_level_is_step_function.2.2 8 (by decide)

/-- C5: in every `AssessmentResult` produced — by a completed real
assessment and by the synthetic test-data path — `total_score` equals the
sum of the four sub-scores, each sub-score lies in `[0, 3]`, and hence
`total_score` lies in `[0, 12]`. -/
theorem total_score_is_sum_of_subscores :
    (∀ ts inp,
      (runCognitiveAssessment ts inp).total_score =
          (runCognitiveAssessment ts inp).orientation_score +
          (runCognitiveAssessment ts inp).memory_score +
          (runCognitiveAssessment ts inp).attention_score +
          (runCognitiveAssessment ts inp).executive_score ∧
      (runCognitiveAssessment ts inp).orientation_score ≤ 3 ∧
      (runCognitiveAssessment ts inp).memory_score ≤ 3 ∧
      (runCognitiveAssessment ts inp).attention_score ≤ 3 ∧
      (runCognitiveAssessment ts inp).executive_score ≤ 3 ∧
      (runCognitiveAssessment ts inp).total_score ≤ 12) ∧
    (∀ ts n,
      (sendTestAssessmentData ts n).total_score =
          (sendTestAssessmentData ts n).orientation_score +
          (sendTestAssessmentData ts n).memory_score +
          (sendTestAssessmentData ts n).attention_score +
          (sendTestAssessmentData ts n).executive_score ∧
      (sendTestAssessmentData ts n).orientation_score ≤ 3 ∧
      (sendTestAssessmentData ts n).memory_score ≤ 3 ∧
      (sendTestAssessmentData ts n).attention_score ≤ 3 ∧
      (sendTestAssessmentData ts n).executive_score ≤ 3 ∧
      (sendTestAssessmentData ts n).total_score ≤ 12) := by
  constructor
  · intro ts inp
    have ho := testOrientation_score_le inp.ori
    have hm := testMemory_score_le inp.mem
    have ha := testAttention_score_le inp.att
    have he := testExecutive_score_le inp.exe
    rw [runCA_total, runCA_ori, runCA_mem, runCA_att, runCA_exe,
      Nat.mod_eq_of_lt (by omega)]
    exact ⟨rfl, ho, hm, ha, he, by omega⟩
  · intro ts n
    rw [sendTD_total, sendTD_ori, sendTD_mem, sendTD_att, sendTD_exe]
    rcases testDataScores_cases n with h | h | h | h <;> rw [h] <;>
      exact ⟨by decide, by decide, by decide, by decide, by decide, by decide⟩

/-- C7: the executive-function sub-score is the fixed mapping of the count
of position-wise matches against the single canonical ordering: exactly 4
matches score 3, at least 2 (but not 4) score 2, anything else scores 0;
one match scores identically to zero matches, and no match count ever
yields a score of 1. -/
theorem executive_score_mapping :
    (∀ inp : ExeInput,
        (testExecutiveFunction inp).1 = executiveScoreOfMatches (exeMatches inp)) ∧
    (∀ m, m = 4 → executiveScoreOfMatches m = 3) ∧
    (∀ m, 2 ≤ m → m ≠ 4 → executiveScoreOfMatches m = 2) ∧
    (∀ m, m < 2 → executiveScoreOfMatches m = 0) ∧
    executiveScoreOfMatches 1 = executiveScoreOfMatches 0 ∧
    (∀ m, executiveScoreOfMatches m ≠ 1) := by
  refine ⟨fun _ => rfl, ?_, ?_, ?_, rfl, ?_⟩
  · intro m hm
    simp [executiveScoreOfMatches, hm]
  · intro m h2 h4
    simp only [executiveScoreOfMatches]
    split_ifs <;> omega
  · intro m hm
    simp only [executiveScoreOfMatches]
    split_ifs <;> omega
  · intro m
    simp only [executiveScoreOfMatches]
    split_ifs <;> omega

/-- Witness for C7: the mapping at concrete match counts 4, 2 and 1. -/
theorem executive_score_mapping_witness :
    executiveScoreOfMatches 4 = 3 ∧ executiveScoreOfMatches 2 = 2 ∧
    executiveScoreOfMatches 1 = 0 :=
  ⟨executive_score_mapping.2.1 4 rfl,
   executive_score_mapping.2.2.1 2 (by decide) (by decide),
   executive_score_mapping.2.2.2.1 1 (by decide)⟩

/-- C10: `responseCount` at the final division of `runCognitiveAssessment`
is at least 2 — `testMemory` and `testExecutiveFunction` each record
exactly one latency unconditionally — so `totalResponseTime /
responseCount` never divides by zero, even when orientation degrades to
zero (recording nothing) and every attention trial is missed. -/
theorem response_count_at_least_two :
    ∀ inp : AssessInput,
      2 ≤ (assessLatencies inp).length ∧ (assessLatencies inp).length ≠ 0 := by
  intro inp
  have h1 : (testMemory inp.mem).2.length = 1 := rfl
  have h2 : (testExecutiveFunction inp.exe).2.length = 1 := rfl
  simp only [assessLatencies, List.length_append, h1, h2]
  omega

/-- C3 counterexample: with time synchronization unavailable and the
location question answered correctly (answer 0, "Hospital"), the
orientation sub-score is 0, not the 1 the claim says is achievable — the
unsynchronized path returns before asking any question. -/
theorem orientation_unsynced_cex :
    (testOrientation
      { timeInfo := none, aDay := 0, aTime := 0, aLoc := 0
        tDay := 500, tTime := 500, tLoc := 500 }).1 = 0 ∧
    (testOrientation
      { timeInfo := none, aDay := 0, aTime := 0, aLoc := 0
        tDay := 500, tTime := 500, tLoc := 500 }).1 ≠ 1 := by
  decide

/-- C3 amended: if time synchronization never succeeds, `testOrientation`
shows a single sync prompt and returns a sub-score of 0 without asking any
question or recording any latency — the day/time *and* location questions
are all skipped, so an unsynced orientation score of 1 is not achievable;
when the clock is available, a correct location answer (0) still
guarantees at least one point. -/
theorem orientation_unsynced_zero :
    (∀ a b c t1 t2 t3 : Nat,
        testOrientation
          { timeInfo := none, aDay := a, aTime := b, aLoc := c
            tDay := t1, tTime := t2, tLoc := t3 } = (0, [])) ∧
    (∀ (tm : Tm) (a b t1 t2 t3 : Nat),
        1 ≤ (testOrientation
          { timeInfo := some tm, aDay := a, aTime := b, aLoc := 0
            tDay := t1, tTime := t2, tLoc := t3 }).1) := by
  constructor
  · intro a b c t1 t2 t3
    rfl
  · intro tm a b t1 t2 t3
    simp only [testOrientation]
    split_ifs <;> simp

/-- Folding the `uint16_t` accumulation from a reduced accumulator is the
same as one reduction of the whole sum. -/
theorem accum_general (ls : List Nat) :
    ∀ a : Nat, ls.foldl (fun x t => (x + t) % 65536) (a % 65536) = (a + ls.sum) % 65536 := by
  induction ls with
  | nil => intro a; simp
  | cons t ls ih =>
    intro a
    simp only [List.foldl_cons, List.sum_cons]
    rw [Nat.mod_add_mod, ih (a + t)]
    congr 1
    omega

/-- The 16-bit running total equals the latency sum reduced modulo 2^16. -/
theorem accumResponseTime_eq_sum_mod (ls : List Nat) :
    accumResponseTime ls = ls.sum % 65536 := by
  have h := accum_general ls 0
  simpa [accumResponseTime] using h

/-- C6 counterexample: for the run `overflowLatencyInput` the recorded
latencies are 40000 ms and 40000 ms, whose integer mean is 40000, but the
stored `avg_response_time_ms` is 7232 — the `uint16_t` accumulator wrapped
at 2^16, so the field is not the mean of the recorded latencies. -/
theorem avg_response_time_cex :
    (runCognitiveAssessment 0 overflowLatencyInput).avg_response_time_ms = 7232 ∧
    (assessLatencies overflowLatencyInput).sum /
        (assessLatencies overflowLatencyInput).length = 40000 ∧
    (7232 : Nat) ≠ 40000 := by
  decide

/-- C6 amended: on completion, `avg_response_time_ms` equals the sum of
every recorded per-question latency *reduced modulo 2^16* (the
`totalResponseTime` accumulator is a `uint16_t`) divided by the number of
recorded latencies; in particular it equals the integer mean of the
recorded latencies whenever their sum stays below 65536. -/
theorem avg_response_time_formula :
    (∀ ts inp, (runCognitiveAssessment ts inp).avg_response_time_ms =
        ((assessLatencies inp).sum % 65536) / (assessLatencies inp).length) ∧
    (∀ ts inp, (assessLatencies inp).sum < 65536 →
        (runCognitiveAssessment ts inp).avg_response_time_ms =
          (assessLatencies inp).sum / (assessLatencies inp).length) := by
  constructor
  · intro ts inp
    rw [runCA_avg, accumResponseTime_eq_sum_mod]
  · intro ts inp h
    rw [runCA_avg, accumResponseTime_eq_sum_mod, Nat.mod_eq_of_lt h]

/-- Witness for C6: on `smallLatencyInput` (latency sum 200 < 65536) the
stored average is the integer mean of the recorded latencies. -/
theorem avg_response_time_formula_witness :
    (runCognitiveAssessment 0 smallLatencyInput).avg_response_time_ms =
      (assessLatencies smallLatencyInput).sum / (assessLatencies smallLatencyInput).length :=
  avg_response_time_formula.2 0 smallLatencyInput (by decide)

/-- `insertAll` advances `queueTail` by the number of insertions,
modulo 20. -/
theorem insertAll_tail (ls : List InteractionLog) :
    ∀ s : RingState, s.tail < 20 → (insertAll s ls).tail = (s.tail + ls.length) % 20 := by
  induction ls with
  | nil =>
    intro s h
    simp [insertAll]
    omega
  | cons l ls ih =>
    intro s h
    have h2 : (logInteractionQ s l).tail < 20 := Nat.mod_lt _ (by omega)
    have h3 := ih (logInteractionQ s l) h2
    simp only [insertAll, List.foldl_cons] at h3 ⊢
    rw [h3]
    simp only [logInteractionQ, List.length_cons]
    omega

/-- `insertAll` never moves `queueHead`. -/
theorem insertAll_head (ls : List InteractionLog) :
    ∀ s : RingState, (insertAll s ls).head = s.head := by
  induction ls with
  | nil => intro s; rfl
  | cons l ls ih =>
    intro s
    have h := ih (logInteractionQ s l)
    simpa [insertAll, logInteractionQ] using h

/-- `insertAll` preserves the physical capacity of the array. -/
theorem insertAll_length (ls : List InteractionLog) :
    ∀ s : RingState, (insertAll s ls).queue.length = s.queue.length := by
  induction ls with
  | nil => intro s; rfl
  | cons l ls ih =>
    intro s
    have h := ih (logInteractionQ s l)
    simpa [insertAll, logInteractionQ] using h

/-- C2 counterexample: inserting the distinguishable records
`numberedLog 1 .. numberedLog 20` into the boot-time queue leaves the
diagnostics occupancy `(queueTail + 20 - queueHead) % 20` at 0, not
`min 20 20 = 20`; and after 21 insertions the slot at logical index 0
counted from `queueHead` holds insertion number 21 (the newest), not
insertion number 2. -/
theorem ring_buffer_claim_cex :
    queueCountDiag (insertAll initialRing
        ((List.range 20).map (fun i => numberedLog (i + 1)))) = 0 ∧
    (0 : Nat) ≠ min 20 20 ∧
    (insertAll initialRing ((List.range 21).map (fun i => numberedLog (i + 1)))).queue[
      (insertAll initialRing ((List.range 21).map (fun i => numberedLog (i + 1)))).head]? =
      some (numberedLog 21) ∧
    numberedLog 21 ≠ numberedLog 2 := by
  decide

/-- C2 amended: insertion into the 20-slot ring always succeeds and keeps
the capacity at 20 slots with `queueTail` advancing modulo 20, but
`queueHead` is never advanced, so the diagnostics occupancy reads
`N % 20` (not `min N 20`) after `N` insertions; after insertion 21 the
array holds exactly the last 20 insertions, with insertion 21 in the slot
at `queueHead` (logical index 0) and insertion 2 — the oldest retained
entry — at logical index 1. -/
theorem ring_buffer_behavior :
    (∀ (ls : List InteractionLog) (s : RingState), s.tail < 20 →
        (insertAll s ls).tail = (s.tail + ls.length) % 20 ∧
        (insertAll s ls).head = s.head ∧
        (insertAll s ls).queue.length = s.queue.length) ∧
    (∀ ls : List InteractionLog,
        queueCountDiag (insertAll initialRing ls) = ls.length % 20) ∧
    (insertAll initialRing ((List.range 21).map (fun i => numberedLog (i + 1)))).queue =
      numberedLog 21 :: (List.range 19).map (fun i => numberedLog (i + 2)) ∧
    (insertAll initialRing ((List.range 21).map (fun i => numberedLog (i + 1)))).queue[0]? =
      some (numberedLog 21) ∧
    (insertAll initialRing ((List.range 21).map (fun i => numberedLog (i + 1)))).queue[1]? =
      some (numberedLog 2) := by
  refine ⟨?_, ?_, by decide, by decide, by decide⟩
  · intro ls s h
    exact ⟨insertAll_tail ls s h, insertAll_head ls s, insertAll_length ls s⟩
  · intro ls
    have ht := insertAll_tail ls initialRing (by decide)
    have hh := insertAll_head ls initialRing
    simp only [queueCountDiag, ht, hh]
    simp only [initialRing]
    omega

/-- Witness for C2: one insertion into the boot-time queue advances the
tail to 1, keeps the head at 0 and the capacity at 20. -/
theorem ring_buffer_behavior_witness :
    (insertAll initialRing [numberedLog 1]).tail =
        (initialRing.tail + ([numberedLog 1] : List InteractionLog).length) % 20 ∧
    (insertAll initialRing [numberedLog 1]).head = initialRing.head ∧
    (insertAll initialRing [numberedLog 1]).queue.length = initialRing.queue.length :=
  ring_buffer_behavior.1 [numberedLog 1] initialRing (by decide)

/-- Every single pet-state mutation keeps the three gauges in `[0, 100]`:
each write is either capped by `min 100 _` or floored by the truncated
subtraction that models `max(0, _)` on unsigned storage. -/
theorem applyPetOp_gauges (p : Pet) (op : PetOp) (h : gaugesInRange p) :
    gaugesInRange (applyPetOp p op) := by
  obtain ⟨h1, h2, h3⟩ := h
  cases op with
  | tick now =>
    simp only [applyPetOp, updatePetStats, gaugesInRange, Nat.min_def]
    split_ifs <;> simp_all <;> omega
  | feed =>
    simp only [applyPetOp, feedPet, gaugesInRange, Nat.min_def]
    split_ifs <;> simp_all <;> omega
  | play hit =>
    cases hit <;> simp only [applyPetOp, playWithPet, gaugesInRange, Nat.min_def] <;>
      split_ifs <;> simp_all <;> omega
  | clean =>
    simp only [applyPetOp, cleanPet, gaugesInRange, Nat.min_def]
    split_ifs <;> simp_all <;> omega
  | mood sel =>
    rcases sel with _ | n
    · exact ⟨h1, h2, h3⟩
    · rcases n with _ | _ | n <;>
        simp only [applyPetOp, checkMood, gaugesInRange, Nat.min_def] <;>
        (try split_ifs) <;> omega
  | memoryGame perfect =>
    cases perfect <;> simp only [applyPetOp, playMemoryGame, gaugesInRange, Nat.min_def] <;>
      split_ifs <;> simp_all <;> omega

/-- C4: for every sequence of maintenance ticks and interactions applied
to a state with in-range gauges (in particular an initialized `PetState`),
happiness, hunger and cleanliness stay in `[0, 100]` after every mutation;
10,000 consecutive maintenance ticks (each with the minute guard elapsed)
keep all gauges in range, and 25 consecutive feeds cap happiness at 100
and hunger at 0. -/
theorem pet_gauges_bounded :
    (∀ (ops : List PetOp) (p : Pet), gaugesInRange p → gaugesInRange (applyPetOps p ops)) ∧
    (∀ now, gaugesInRange (initializePet now)) ∧
    gaugesInRange (applyPetOps (initializePet 0)
      ((List.range 10000).map fun i => PetOp.tick ((i + 1) * 60001))) ∧
    (applyPetOps (initializePet 0) (List.replicate 25 PetOp.feed)).happiness = 100 ∧
    (applyPetOps (initializePet 0) (List.replicate 25 PetOp.feed)).hunger = 0 := by
  have key : ∀ (ops : List PetOp) (p : Pet), gaugesInRange p → gaugesInRange (applyPetOps p ops) := by
    intro ops
    induction ops with
    | nil => intro p h; exact h
    | cons op ops ih =>
      intro p h
      have h2 := ih (applyPetOp p op) (applyPetOp_gauges p op h)
      simpa [applyPetOps] using h2
  refine ⟨key, ?_, ?_, by decide, by decide⟩
  · intro now
    exact ⟨by simp [initializePet], by simp [initializePet], by simp [initializePet]⟩
  · exact key _ (initializePet 0) ⟨by simp [initializePet], by simp [initializePet], by simp [initializePet]⟩

/-- Witness for C4: the invariant applied to one feed interaction from the
freshly initialized pet. -/
theorem pet_gauges_bounded_witness :
    gaugesInRange (applyPetOps (initializePet 0) [PetOp.feed]) :=
  pet_gauges_bounded.1 [PetOp.feed] (initializePet 0) (by decide)

/-- C8: `rotateOptions` on any 3-element array is the cyclic rotation by
`shift % 3`: applying it three times with the same shift restores the
original array, the shift only matters modulo 3, and the correct answer's
slot after rotation is recovered by applying the same rotation offset to
the answer's original index. -/
theorem rotateOptions_cyclic :
    (∀ (a : Nat × Nat × Nat) (s : Nat),
        rotateOptions (rotateOptions (rotateOptions a s) s) s = a) ∧
    (∀ (a : Nat × Nat × Nat) (s : Nat), rotateOptions a (s + 3) = rotateOptions a s) ∧
    (∀ (a : Nat × Nat × Nat) (s i : Nat), i < 3 →
        tripleGet (rotateOptions a s) ((i + (3 - s % 3)) % 3) = tripleGet a i) := by
  refine ⟨?_, ?_, ?_⟩
  · intro a s
    obtain ⟨x, y, z⟩ := a
    have h : s % 3 = 0 ∨ s % 3 = 1 ∨ s % 3 = 2 := by omega
    rcases h with h | h | h <;> simp only [rotateOptions, h] <;> rfl
  · intro a s
    simp only [rotateOptions, Nat.add_mod_right]
  · intro a s i hi
    obtain ⟨x, y, z⟩ := a
    have h : s % 3 = 0 ∨ s % 3 = 1 ∨ s % 3 = 2 := by omega
    interval_cases i <;> rcases h with h | h | h <;> simp only [rotateOptions, h] <;> rfl

/-- Witness for C8: index recovery at the concrete array `(10, 20, 30)`,
shift 1, original index 0. -/
theorem rotateOptions_cyclic_witness :
    tripleGet (rotateOptions ((10 : Nat), 20, 30) 1) ((0 + (3 - 1 % 3)) % 3) =
      tripleGet ((10 : Nat), 20, 30) 0 :=
  rotateOptions_cyclic.2.2 (10, 20, 30) 1 0 (by decide)

/-- C9 counterexample: a diagnostics iteration with button 1 freshly
pressed mutates the button edge-tracking globals (via its call to
`updateButtons`), which are not among the states the claim allows it to
change — so diagnostics does not change *only* page/refresh/active/
current-state bookkeeping. -/
theorem diagnostics_mutation_cex :
    (runDiagnosticsMode { b1 := true, b2 := false, b3 := false, now := 5000 }
        { buttons := initialButtons, pet := initializePet 0
          lastAssessment := zeroAssessment, ring := initialRing
          diagnosticsPage := 0, lastDiagnosticsRefresh := 0
          diagnosticsActive := true, exitHold := false, exitStart := 0
          currentState := DevState.diagnostics }).buttons.btn1Pressed = true ∧
    initialButtons.btn1Pressed = false ∧
    (runDiagnosticsMode { b1 := true, b2 := false, b3 := false, now := 5000 }
        { buttons := initialButtons, pet := initializePet 0
          lastAssessment := zeroAssessment, ring := initialRing
          diagnosticsPage := 0, lastDiagnosticsRefresh := 0
          diagnosticsActive := true, exitHold := false, exitStart := 0
          currentState := DevState.diagnostics }).buttons ≠ initialButtons := by
  decide

/-- C9 amended: every execution of `runDiagnosticsMode` leaves the
assessment result, the pet state and the interaction/telemetry queue
(contents, `queueHead`, `queueTail`) unchanged — it only reads them; the
state it may change is the diagnostics bookkeeping (page, refresh timer,
active flag, exit-hold tracker), the button edge-tracking state written by
its call to `updateButtons`, and the current state on exit back to the
pet-normal state. -/
theorem diagnostics_preserves_core_state :
    ∀ (inp : DiagInput) (d : Device),
      (runDiagnosticsMode inp d).pet = d.pet ∧
      (runDiagnosticsMode inp d).lastAssessment = d.lastAssessment ∧
      (runDiagnosticsMode inp d).ring = d.ring := by
  intro inp d
  simp only [runDiagnosticsMode, diagRefresh]
  split_ifs <;> simp

end NightWatch
